import Mathlib

/-!
Shallow embedding of the donation-backend HTTP service (an Express/Mongoose
application). The service keeps an in-memory set of admin session tokens,
a persisted list of donation records, and exposes five routes:

  GET  /                     public liveness probe
  POST /api/donations        public donation submission
  POST /api/admin/login      password for token exchange
  POST /api/admin/logout     admin-gated, revokes the caller token
  GET  /api/admin/donations  admin-gated, lists all records newest first

The embedding models each handler as a pure function from the request, an
environment (the freshly generated uuid and the current time) and the server
state to a response and a new state. Strings are Lean strings; JS string
operations used by the code (startsWith, first-occurrence replace, trim) are
re-implemented faithfully on character lists so that they compute.
-/

namespace DonationBackend

/-! ### JS string primitives used by the middleware -/

/-- JS `s.startsWith(pre)`. -/
def jsStartsWith (s pre : String) : Bool :=
  pre.toList.isPrefixOf s.toList

/-- JS `String.prototype.replace` with a plain-string pattern replaces only the
first occurrence of the pattern. Character-list version, structural on the
subject string. -/
def replaceFirstList (pat rep : List Char) : List Char → List Char
  | [] => []
  | c :: rest =>
    if pat.isPrefixOf (c :: rest) then rep ++ (c :: rest).drop pat.length
    else c :: replaceFirstList pat rep rest

/-- JS `s.trim()`: drop whitespace from both ends. -/
def jsTrimList (s : List Char) : List Char :=
  ((s.dropWhile Char.isWhitespace).reverse.dropWhile Char.isWhitespace).reverse

/-- The token the middleware extracts from an Authorization header:
`authHeader.replace('Bearer ', '').trim()`. -/
def extractToken (h : String) : String :=
  ⟨jsTrimList (replaceFirstList "Bearer ".toList [] h.toList)⟩

/-! ### Donation record schema

The mongoose schema declares ten paths. `timestamp` is optional with default
`Date.now`; the other nine are `required`. The two revisions of the server
file differ on the declared type of `cardCvc`: `server.js` declares
`type: String`, while the other revision declares `type: true` (the boolean
literal in place of a type). We record both schema declarations as data. -/

inductive SchemaTypeExpr
  | dateT
  | stringT
  | numberT
  | trueLit
deriving DecidableEq, Repr

structure SchemaField where
  name : String
  typeExpr : SchemaTypeExpr
  required : Bool
  hasDefaultNow : Bool
deriving DecidableEq, Repr

/-- The donation schema as declared in `src/server.js`. -/
def donationSchemaServerJs : List SchemaField :=
  [⟨"timestamp", .dateT, false, true⟩,
   ⟨"firstName", .stringT, true, false⟩,
   ⟨"lastName", .stringT, true, false⟩,
   ⟨"email", .stringT, true, false⟩,
   ⟨"address", .stringT, true, false⟩,
   ⟨"country", .stringT, true, false⟩,
   ⟨"amount", .numberT, true, false⟩,
   ⟨"cardNumber", .stringT, true, false⟩,
   ⟨"cardExpiry", .stringT, true, false⟩,
   ⟨"cardCvc", .stringT, true, false⟩]

/-- The donation schema as declared in `src/unnamed/part_000`: identical except
that the `cardCvc` path is declared with the literal `true` as its type. -/
def donationSchemaPart000 : List SchemaField :=
  [⟨"timestamp", .dateT, false, true⟩,
   ⟨"firstName", .stringT, true, false⟩,
   ⟨"lastName", .stringT, true, false⟩,
   ⟨"email", .stringT, true, false⟩,
   ⟨"address", .stringT, true, false⟩,
   ⟨"country", .stringT, true, false⟩,
   ⟨"amount", .numberT, true, false⟩,
   ⟨"cardNumber", .stringT, true, false⟩,
   ⟨"cardExpiry", .stringT, true, false⟩,
   ⟨"cardCvc", .trueLit, true, false⟩]

/-- Look a path up in a schema declaration. -/
def schemaField (fs : List SchemaField) (n : String) : Option SchemaField :=
  fs.find? (fun f => f.name == n)

/-! ### Donation records and creation -/

/-- The request body of `POST /api/donations`: each schema path may be present
or absent. Dates are modelled as naturals, `amount` as an integer. -/
structure DonationInput where
  timestamp : Option Nat
  firstName : Option String
  lastName : Option String
  email : Option String
  address : Option String
  country : Option String
  amount : Option Int
  cardNumber : Option String
  cardExpiry : Option String
  cardCvc : Option String
deriving DecidableEq, Repr

/-- A persisted donation record: all required paths present. -/
structure DonationRecord where
  timestamp : Nat
  firstName : String
  lastName : String
  email : String
  address : String
  country : String
  amount : Int
  cardNumber : String
  cardExpiry : String
  cardCvc : String
deriving DecidableEq, Repr

/-- Mongoose `required` on a String path: the value must be present and
non-empty. -/
def requiredStringField (v : Option String) : Option String :=
  match v with
  | none => none
  | some s => if s.isEmpty then none else some s

/-- `new Donation(req.body)` followed by `save()`: validates the nine required
paths, defaults `timestamp` to the current time, and stores every submitted
value verbatim. Returns `none` when validation rejects the write. -/
def buildDonation (now : Nat) (i : DonationInput) : Option DonationRecord :=
  match requiredStringField i.firstName, requiredStringField i.lastName,
        requiredStringField i.email, requiredStringField i.address,
        requiredStringField i.country, i.amount,
        requiredStringField i.cardNumber, requiredStringField i.cardExpiry,
        requiredStringField i.cardCvc with
  | some firstName, some lastName, some email, some address, some country,
    some amount, some cardNumber, some cardExpiry, some cardCvc =>
    some { timestamp := i.timestamp.getD now, firstName := firstName,
           lastName := lastName, email := email, address := address,
           country := country, amount := amount, cardNumber := cardNumber,
           cardExpiry := cardExpiry, cardCvc := cardCvc }
  | _, _, _, _, _, _, _, _, _ => none

/-! ### Responses, state, requests -/

inductive RespBody
  | message : String → RespBody
  | token : String → RespBody
  | donations : List DonationRecord → RespBody
  | statusMsg : String → String → RespBody
deriving DecidableEq, Repr

structure HttpResponse where
  status : Nat
  body : RespBody
deriving DecidableEq, Repr

/-- Mutable state of the process: `adminSessions` (a JS `Set` of tokens) and
the persisted donation collection, in insertion order. -/
structure ServerState where
  adminSessions : Finset String
  donations : List DonationRecord
deriving DecidableEq

/-- Per-request environment: the uuid that `uuidv4()` would generate for this
request and the current time `Date.now`. -/
structure Env where
  freshToken : String
  now : Nat
deriving DecidableEq, Repr

inductive Request
  | root
  | createDonation : DonationInput → Request
  | adminLogin : Option String → Request
  | adminLogout : Option String → Request
  | adminDonations : Option String → Request
deriving DecidableEq, Repr

/-! ### Session registry operations -/

/-- `adminSessions.add(token)` after generating a fresh uuid. -/
def issue (sessions : Finset String) (t : String) : Finset String :=
  insert t sessions

/-- `adminSessions.has(token)`. -/
def isValid (sessions : Finset String) (t : String) : Bool :=
  decide (t ∈ sessions)

/-- `adminSessions.delete(token)`. JS `Set.delete` never throws; deleting an
absent element is a no-op. -/
def revoke (sessions : Finset String) (t : String) : Finset String :=
  sessions.erase t

/-! ### The admin gate and the router -/

inductive GateResult
  | denied : HttpResponse → GateResult
  | granted : String → GateResult
deriving DecidableEq, Repr

/-- The `authenticateAdmin` middleware. A missing header, or one that does not
start with `Bearer `, yields 401 (an empty-string header is also falsy in JS,
but it fails the startsWith test identically). Otherwise the token is
extracted and checked against the registry; an unknown token yields 403. -/
def authenticateAdmin (sessions : Finset String) (authHeader : Option String) :
    GateResult :=
  match authHeader with
  | none => .denied ⟨401, .message "Authorization token missing"⟩
  | some h =>
    if jsStartsWith h "Bearer " then
      if isValid sessions (extractToken h) then .granted (extractToken h)
      else .denied ⟨403, .message "Invalid or expired token"⟩
    else .denied ⟨401, .message "Authorization token missing"⟩

/-- `Donation.find({}).sort(timestamp descending)`: the full collection,
newest first. -/
def listAll (store : List DonationRecord) : List DonationRecord :=
  store.mergeSort (fun a b => decide (b.timestamp ≤ a.timestamp))

/-- One request against the router of `src/unnamed/part_000` (the current
revision; the older `src/server.js` differs only in the root route, which
serves a static file instead). `adminPassword` is `process.env.ADMIN_PASSWORD`,
`none` when the variable is unset; a missing `password` body field is likewise
`none`, and the comparison `password !== ADMIN_PASSWORD` is equality of these
options. -/
def handleRequest (adminPassword : Option String) (env : Env)
    (st : ServerState) : Request → HttpResponse × ServerState
  | .root => (⟨200, .statusMsg "live" "Donation API is running!"⟩, st)
  | .createDonation body =>
    match buildDonation env.now body with
    | some r =>
      (⟨201, .message "Donation received"⟩,
       { st with donations := st.donations ++ [r] })
    | none => (⟨500, .message "Error saving donation"⟩, st)
  | .adminLogin password =>
    if password = adminPassword then
      (⟨200, .token env.freshToken⟩,
       { st with adminSessions := issue st.adminSessions env.freshToken })
    else
      (⟨401, .message "Incorrect password"⟩, st)
  | .adminLogout authHeader =>
    match authenticateAdmin st.adminSessions authHeader with
    | .denied resp => (resp, st)
    | .granted token =>
      (⟨200, .message "Logged out successfully"⟩,
       { st with adminSessions := revoke st.adminSessions token })
  | .adminDonations authHeader =>
    match authenticateAdmin st.adminSessions authHeader with
    | .denied resp => (resp, st)
    | .granted _ =>
      (⟨200, .donations (listAll st.donations)⟩, st)

/-- Run a sequence of requests, threading the state. -/
def runTrace (adminPassword : Option String) :
    List (Env × Request) → ServerState → ServerState
  | [], st => st
  | (env, r) :: rest, st =>
    runTrace adminPassword rest (handleRequest adminPassword env st r).2

/-! ### Step predicates for the session-lifecycle claims -/

/-- The request is a successful login whose generated uuid is `t`. -/
def issuesToken (adminPassword : Option String) (env : Env) (r : Request)
    (t : String) : Prop :=
  ∃ pw, r = .adminLogin pw ∧ pw = adminPassword ∧ env.freshToken = t

/-- The request is a logout carrying a well-formed bearer header whose
extracted token is `t`. -/
def attemptsRevoke (r : Request) (t : String) : Prop :=
  ∃ h, r = .adminLogout (some h) ∧ jsStartsWith h "Bearer " = true ∧
    extractToken h = t

/-- A missing Authorization header, or one not starting with `Bearer `. -/
def malformedAuth (auth : Option String) : Prop :=
  auth = none ∨ ∃ h, auth = some h ∧ jsStartsWith h "Bearer " = false

/-- At least one of the nine required donation fields is absent from the
request body. -/
def requiredFieldMissing (i : DonationInput) : Prop :=
  i.firstName = none ∨ i.lastName = none ∨ i.email = none ∨
  i.address = none ∨ i.country = none ∨ i.amount = none ∨
  i.cardNumber = none ∨ i.cardExpiry = none ∨ i.cardCvc = none

/-! ### Theorems -/

/-- C7: every GET / request answers 200 with a body carrying status `live` and
a message string, for every configuration and state; no authentication is
consulted. -/
theorem root_liveness_probe (adminPassword : Option String) (env : Env)
    (st : ServerState) :
    handleRequest adminPassword env st .root =
      (⟨200, .statusMsg "live" "Donation API is running!"⟩, st) := rfl

/-- C10: when ADMIN_PASSWORD is unset and the login body omits the password,
the comparison of the two absent values succeeds, so login answers 200 and
issues a token that the registry then accepts. -/
theorem login_succeeds_when_password_unset (env : Env) (st : ServerState) :
    handleRequest none env st (.adminLogin none) =
      (⟨200, .token env.freshToken⟩,
       { st with adminSessions := issue st.adminSessions env.freshToken }) ∧
    isValid (issue st.adminSessions env.freshToken) env.freshToken = true := by
  refine ⟨rfl, ?_⟩
  simp [isValid, issue]

/-- C2: a login with the configured password answers 200 with the freshly
generated token, now added to the registry; any other password answers 401
with message Incorrect password and leaves the state unchanged. -/
theorem login_contract (adminPassword : Option String) (env : Env)
    (st : ServerState) (pw : Option String) :
    (pw = adminPassword →
      handleRequest adminPassword env st (.adminLogin pw) =
        (⟨200, .token env.freshToken⟩,
         { st with adminSessions := issue st.adminSessions env.freshToken })) ∧
    (pw ≠ adminPassword →
      handleRequest adminPassword env st (.adminLogin pw) =
        (⟨401, .message "Incorrect password"⟩, st)) := by
  constructor <;> intro h <;> simp [handleRequest, h]

/-- Witness for C2 at the concrete password `secret`. -/
theorem login_contract_witness :
    handleRequest (some "secret") ⟨"tok", 0⟩ ⟨∅, []⟩
        (.adminLogin (some "secret")) =
      (⟨200, .token "tok"⟩,
       { adminSessions := issue ∅ "tok", donations := [] }) ∧
    handleRequest (some "secret") ⟨"tok", 0⟩ ⟨∅, []⟩
        (.adminLogin (some "wrong")) =
      (⟨401, .message "Incorrect password"⟩, ⟨∅, []⟩) :=
  ⟨(login_contract (some "secret") ⟨"tok", 0⟩ ⟨∅, []⟩ (some "secret")).1 rfl,
   (login_contract (some "secret") ⟨"tok", 0⟩ ⟨∅, []⟩ (some "wrong")).2
     (by decide)⟩

/-- C4: revoking an absent token is a no-op (and no error), and revoking twice
equals revoking once. -/
theorem revoke_idempotent (sessions : Finset String) (t : String) :
    (t ∉ sessions → revoke sessions t = sessions) ∧
    revoke (revoke sessions t) t = revoke sessions t := by
  refine ⟨fun h => Finset.erase_eq_of_not_mem h, ?_⟩
  simp [revoke, Finset.erase_idem]

/-- Witness for C4: revoking a token absent from the empty registry. -/
theorem revoke_idempotent_witness :
    revoke (∅ : Finset String) "tok" = ∅ :=
  (revoke_idempotent ∅ "tok").1 (by decide)

/-- C1: on both admin-gated endpoints, a missing or malformed Authorization
header answers 401 with message Authorization token missing, and a well-formed
header whose extracted token is not in the registry answers 403 with message
Invalid or expired token; in both cases the state is unchanged, so the wrapped
operation did not execute. -/
theorem admin_gate_failure (adminPassword : Option String) (env : Env)
    (st : ServerState) (auth : Option String) (r : Request)
    (hr : r = .adminLogout auth ∨ r = .adminDonations auth) :
    (malformedAuth auth →
      handleRequest adminPassword env st r =
        (⟨401, .message "Authorization token missing"⟩, st)) ∧
    (∀ h, auth = some h → jsStartsWith h "Bearer " = true →
      extractToken h ∉ st.adminSessions →
      handleRequest adminPassword env st r =
        (⟨403, .message "Invalid or expired token"⟩, st)) := by
  have gate401 : malformedAuth auth →
      authenticateAdmin st.adminSessions auth =
        .denied ⟨401, .message "Authorization token missing"⟩ := by
    rintro (rfl | ⟨h, rfl, hsw⟩)
    · rfl
    · simp [authenticateAdmin, hsw]
  have gate403 : ∀ h, auth = some h → jsStartsWith h "Bearer " = true →
      extractToken h ∉ st.adminSessions →
      authenticateAdmin st.adminSessions auth =
        .denied ⟨403, .message "Invalid or expired token"⟩ := by
    rintro h rfl hsw hmem
    simp [authenticateAdmin, hsw, isValid, hmem]
  have hlog : ∀ resp, authenticateAdmin st.adminSessions auth = .denied resp →
      handleRequest adminPassword env st (.adminLogout auth) = (resp, st) := by
    intro resp hg
    simp [handleRequest, hg]
  have hdon : ∀ resp, authenticateAdmin st.adminSessions auth = .denied resp →
      handleRequest adminPassword env st (.adminDonations auth) =
        (resp, st) := by
    intro resp hg
    simp [handleRequest, hg]
  rcases hr with rfl | rfl
  · exact ⟨fun hm => hlog _ (gate401 hm),
      fun h hh hsw hmem => hlog _ (gate403 h hh hsw hmem)⟩
  · exact ⟨fun hm => hdon _ (gate401 hm),
      fun h hh hsw hmem => hdon _ (gate403 h hh hsw hmem)⟩

/-- Witness for C1: a logout with no header gets 401; an admin listing with an
unknown bearer token gets 403. -/
theorem admin_gate_failure_witness :
    handleRequest none ⟨"e", 0⟩ ⟨∅, []⟩ (.adminLogout none) =
      (⟨401, .message "Authorization token missing"⟩, ⟨∅, []⟩) ∧
    handleRequest none ⟨"e", 0⟩ ⟨∅, []⟩ (.adminDonations (some "Bearer x")) =
      (⟨403, .message "Invalid or expired token"⟩, ⟨∅, []⟩) :=
  ⟨(admin_gate_failure none ⟨"e", 0⟩ ⟨∅, []⟩ none _ (Or.inl rfl)).1
     (Or.inl rfl),
   (admin_gate_failure none ⟨"e", 0⟩ ⟨∅, []⟩ (some "Bearer x") _
     (Or.inr rfl)).2 "Bearer x" rfl (by decide) (by decide)⟩

/-- Validation rejects any body with a required field absent. -/
theorem buildDonation_eq_none_of_missing (now : Nat) (i : DonationInput)
    (h : requiredFieldMissing i) : buildDonation now i = none := by
  unfold buildDonation
  split
  · rcases h with h | h | h | h | h | h | h | h | h <;>
      simp_all [requiredStringField]
  · rfl

/-- C5: a donation submission missing any required field persists nothing and
answers 500 with message Error saving donation. -/
theorem create_rejects_missing_fields (adminPassword : Option String)
    (env : Env) (st : ServerState) (i : DonationInput)
    (h : requiredFieldMissing i) :
    handleRequest adminPassword env st (.createDonation i) =
      (⟨500, .message "Error saving donation"⟩, st) := by
  simp [handleRequest, buildDonation_eq_none_of_missing env.now i h]

/-- Witness for C5: the all-absent body is rejected and the store stays
empty. -/
theorem create_rejects_missing_fields_witness :
    handleRequest none ⟨"e", 0⟩ ⟨∅, []⟩
        (.createDonation
          ⟨none, none, none, none, none, none, none, none, none, none⟩) =
      (⟨500, .message "Error saving donation"⟩, ⟨∅, []⟩) :=
  create_rejects_missing_fields none ⟨"e", 0⟩ ⟨∅, []⟩ _ (Or.inl rfl)

/-- The gate grants a well-formed header whose extracted token is
registered, passing the token through. -/
theorem authenticateAdmin_granted (sessions : Finset String) (h : String)
    (hsw : jsStartsWith h "Bearer " = true)
    (hmem : extractToken h ∈ sessions) :
    authenticateAdmin sessions (some h) = .granted (extractToken h) := by
  simp [authenticateAdmin, hsw, isValid, hmem]

/-- The gate answers 403 on a well-formed header whose extracted token is not
registered. -/
theorem authenticateAdmin_denied403 (sessions : Finset String) (h : String)
    (hsw : jsStartsWith h "Bearer " = true)
    (hmem : extractToken h ∉ sessions) :
    authenticateAdmin sessions (some h) =
      .denied ⟨403, .message "Invalid or expired token"⟩ := by
  simp [authenticateAdmin, hsw, isValid, hmem]

/-- How one request changes membership of a token in the session registry:
the token is in the new registry exactly when the request is a successful
login generating it, or it was already there and the request is not a logout
carrying it. -/
theorem mem_sessions_step (adminPassword : Option String) (env : Env)
    (st : ServerState) (r : Request) (t : String) :
    t ∈ (handleRequest adminPassword env st r).2.adminSessions ↔
      issuesToken adminPassword env r t ∨
        (t ∈ st.adminSessions ∧ ¬ attemptsRevoke r t) := by
  cases r with
  | root =>
    simp [handleRequest, issuesToken, attemptsRevoke]
  | createDonation body =>
    cases hb : buildDonation env.now body <;>
      simp [handleRequest, hb, issuesToken, attemptsRevoke]
  | adminLogin pw =>
    by_cases hpw : pw = adminPassword
    · subst hpw
      simp [handleRequest, issue, Finset.mem_insert, issuesToken,
        attemptsRevoke]
      exact or_congr eq_comm Iff.rfl
    · simp [handleRequest, hpw, issuesToken, attemptsRevoke]
  | adminLogout auth =>
    cases auth with
    | none =>
      simp [handleRequest, authenticateAdmin, issuesToken, attemptsRevoke]
    | some h =>
      by_cases hsw : jsStartsWith h "Bearer " = true
      · by_cases hmem : extractToken h ∈ st.adminSessions
        · have hg := authenticateAdmin_granted st.adminSessions h hsw hmem
          simp only [handleRequest, hg, revoke, Finset.mem_erase,
            issuesToken, attemptsRevoke]
          constructor
          · rintro ⟨hne, hm⟩
            refine Or.inr ⟨hm, ?_⟩
            rintro ⟨h', heq, -, hext⟩
            cases heq
            exact hne hext.symm
          · rintro (⟨pw, hcon, -, -⟩ | ⟨hm, hna⟩)
            · exact Request.noConfusion hcon
            · exact ⟨fun he => hna ⟨h, rfl, hsw, he.symm⟩, hm⟩
        · have hg := authenticateAdmin_denied403 st.adminSessions h hsw hmem
          simp only [handleRequest, hg, issuesToken, attemptsRevoke]
          constructor
          · intro hm
            refine Or.inr ⟨hm, ?_⟩
            rintro ⟨h', heq, -, hext⟩
            cases heq
            exact hmem (by rw [hext]; exact hm)
          · rintro (⟨pw, hcon, -, -⟩ | ⟨hm, -⟩)
            · exact Request.noConfusion hcon
            · exact hm
      · simp [handleRequest, authenticateAdmin, hsw, issuesToken,
          attemptsRevoke]
  | adminDonations auth =>
    cases hg : authenticateAdmin st.adminSessions auth <;>
      simp [handleRequest, hg, issuesToken, attemptsRevoke]

/-- A valid token stays valid across any trace containing no logout that
carries it. -/
theorem mem_runTrace_of_no_revoke (adminPassword : Option String) (t : String) :
    ∀ (tr : List (Env × Request)) (st : ServerState),
      t ∈ st.adminSessions → (∀ p ∈ tr, ¬ attemptsRevoke p.2 t) →
      t ∈ (runTrace adminPassword tr st).adminSessions := by
  intro tr
  induction tr with
  | nil => exact fun st h _ => h
  | cons p rest ih =>
    rintro st hmem hno
    obtain ⟨env, r⟩ := p
    refine ih _ ?_ fun q hq => hno q (List.mem_cons_of_mem _ hq)
    exact (mem_sessions_step adminPassword env st r t).2
      (Or.inr ⟨hmem, hno ⟨env, r⟩ (List.mem_cons_self _ _)⟩)

/-- An invalid token stays invalid across any trace containing no successful
login that generates it. -/
theorem not_mem_runTrace_of_no_issue (adminPassword : Option String)
    (t : String) :
    ∀ (tr : List (Env × Request)) (st : ServerState),
      t ∉ st.adminSessions →
      (∀ p ∈ tr, ¬ issuesToken adminPassword p.1 p.2 t) →
      t ∉ (runTrace adminPassword tr st).adminSessions := by
  intro tr
  induction tr with
  | nil => exact fun st h _ => h
  | cons p rest ih =>
    rintro st hmem hno
    obtain ⟨env, r⟩ := p
    refine ih _ ?_ fun q hq => hno q (List.mem_cons_of_mem _ hq)
    rw [mem_sessions_step]
    rintro (hiss | ⟨hm, -⟩)
    · exact hno ⟨env, r⟩ (List.mem_cons_self _ _) hiss
    · exact hmem hm

/-- C3: a token in the registry is accepted until a logout carrying it occurs;
a logout carrying a valid token removes it; once absent it stays absent unless
reissued by a successful login, and an admin-gated request presenting it is
answered 403. -/
theorem token_lifecycle (adminPassword : Option String) (st : ServerState)
    (t : String) (tr : List (Env × Request)) :
    (t ∈ st.adminSessions → (∀ p ∈ tr, ¬ attemptsRevoke p.2 t) →
      t ∈ (runTrace adminPassword tr st).adminSessions) ∧
    (t ∉ st.adminSessions →
      (∀ p ∈ tr, ¬ issuesToken adminPassword p.1 p.2 t) →
      t ∉ (runTrace adminPassword tr st).adminSessions) ∧
    (∀ env h, jsStartsWith h "Bearer " = true → extractToken h = t →
      t ∉ (handleRequest adminPassword env st
        (.adminLogout (some h))).2.adminSessions) ∧
    (∀ env h, jsStartsWith h "Bearer " = true → extractToken h = t →
      t ∉ st.adminSessions →
      (handleRequest adminPassword env st (.adminDonations (some h))).1 =
        ⟨403, .message "Invalid or expired token"⟩) := by
  refine ⟨mem_runTrace_of_no_revoke adminPassword t tr st,
    not_mem_runTrace_of_no_issue adminPassword t tr st, ?_, ?_⟩
  · intro env h hsw hext
    rw [mem_sessions_step]
    rintro (⟨pw, hcon, -, -⟩ | ⟨-, hna⟩)
    · exact absurd hcon (by simp)
    · exact hna ⟨h, rfl, hsw, hext⟩
  · intro env h hsw hext hmem
    have hg := authenticateAdmin_denied403 st.adminSessions h hsw
      (by rw [hext]; exact hmem)
    simp [handleRequest, hg]

/-- Witness for C3: the token survives an unrelated request, is removed by its
own logout, and is then refused with 403. -/
theorem token_lifecycle_witness :
    ("tok" ∈ (runTrace none [(⟨"e", 0⟩, .root)]
        ⟨{"tok"}, []⟩).adminSessions) ∧
    ("tok" ∉ (handleRequest none ⟨"e", 0⟩ ⟨{"tok"}, []⟩
        (.adminLogout (some "Bearer tok"))).2.adminSessions) ∧
    ((handleRequest none ⟨"e", 0⟩ ⟨∅, []⟩
        (.adminDonations (some "Bearer tok"))).1 =
      ⟨403, .message "Invalid or expired token"⟩) :=
  ⟨(token_lifecycle none ⟨{"tok"}, []⟩ "tok" [(⟨"e", 0⟩, .root)]).1
     (by decide)
     (by
       intro p hp
       rcases List.mem_singleton.mp hp with rfl
       rintro ⟨h, hcon, -, -⟩
       exact Request.noConfusion hcon),
   (token_lifecycle none ⟨{"tok"}, []⟩ "tok" []).2.2.1 ⟨"e", 0⟩
     "Bearer tok" (by decide) (by decide),
   (token_lifecycle none ⟨∅, []⟩ "tok" []).2.2.2 ⟨"e", 0⟩
     "Bearer tok" (by decide) (by decide) (by decide)⟩

/-- No single request removes or changes an already-persisted donation: the
new store is the old store with zero or one records appended. -/
theorem donations_step (adminPassword : Option String) (env : Env)
    (st : ServerState) (r : Request) :
    ∃ tl, (handleRequest adminPassword env st r).2.donations =
      st.donations ++ tl := by
  cases r with
  | root => exact ⟨[], by simp [handleRequest]⟩
  | createDonation body =>
    cases hb : buildDonation env.now body with
    | none => exact ⟨[], by simp [handleRequest, hb]⟩
    | some rec => exact ⟨[rec], by simp [handleRequest, hb]⟩
  | adminLogin pw =>
    exact ⟨[], by by_cases hpw : pw = adminPassword <;>
      simp [handleRequest, hpw]⟩
  | adminLogout auth =>
    exact ⟨[], by cases hg : authenticateAdmin st.adminSessions auth <;>
      simp [handleRequest, hg]⟩
  | adminDonations auth =>
    exact ⟨[], by cases hg : authenticateAdmin st.adminSessions auth <;>
      simp [handleRequest, hg]⟩

/-- C9: across any sequence of requests, the donation collection only ever
grows at the end: every persisted record remains present, unmodified and in
place (the service is append-only; nothing updates or deletes). -/
theorem donations_append_only (adminPassword : Option String)
    (tr : List (Env × Request)) :
    ∀ st : ServerState, ∃ tl,
      (runTrace adminPassword tr st).donations = st.donations ++ tl := by
  induction tr with
  | nil => exact fun st => ⟨[], by simp [runTrace]⟩
  | cons p rest ih =>
    intro st
    obtain ⟨env, r⟩ := p
    obtain ⟨tl1, h1⟩ := donations_step adminPassword env st r
    obtain ⟨tl2, h2⟩ := ih (handleRequest adminPassword env st r).2
    exact ⟨tl1 ++ tl2, by simp [runTrace, h2, h1]⟩

/-- C6: a successful admin listing returns the whole collection (a permutation
of the store, no record dropped or added), ordered by timestamp descending,
whatever the insertion order was. -/
theorem listAll_sorted (store : List DonationRecord) :
    List.Perm (listAll store) store ∧
    List.Pairwise (fun a b => b.timestamp ≤ a.timestamp) (listAll store) ∧
    (∀ (adminPassword : Option String) (env : Env) (st : ServerState) h,
      jsStartsWith h "Bearer " = true →
      extractToken h ∈ st.adminSessions →
      handleRequest adminPassword env st (.adminDonations (some h)) =
        (⟨200, .donations (listAll st.donations)⟩, st)) := by
  have htrans : ∀ a b c : DonationRecord,
      (fun a b : DonationRecord => decide (b.timestamp ≤ a.timestamp)) a b →
      (fun a b : DonationRecord => decide (b.timestamp ≤ a.timestamp)) b c →
      (fun a b : DonationRecord => decide (b.timestamp ≤ a.timestamp)) a c := by
    intro a b c hab hbc
    simp only [decide_eq_true_eq] at *
    omega
  have htotal : ∀ a b : DonationRecord,
      ((fun a b : DonationRecord => decide (b.timestamp ≤ a.timestamp)) a b ||
       (fun a b : DonationRecord => decide (b.timestamp ≤ a.timestamp)) b a) := by
    intro a b
    simp only [Bool.or_eq_true, decide_eq_true_eq]
    omega
  refine ⟨List.mergeSort_perm store _, ?_, ?_⟩
  · have hs := List.sorted_mergeSort htrans htotal store
    exact hs.imp fun hab => by simpa using hab
  · intro adminPassword env st h hsw hmem
    simp [handleRequest, authenticateAdmin, hsw, isValid, hmem]

/-- Witness for C6 on a two-record store inserted oldest-first. -/
theorem listAll_sorted_witness :
    handleRequest none ⟨"e", 0⟩
        ⟨{"tok"}, [⟨1, "A", "B", "a", "x", "y", 10, "4111", "12/30", "123"⟩,
                   ⟨5, "C", "D", "c", "z", "w", 20, "4222", "11/31", "456"⟩]⟩
        (.adminDonations (some "Bearer tok")) =
      (⟨200, .donations (listAll
          [⟨1, "A", "B", "a", "x", "y", 10, "4111", "12/30", "123"⟩,
           ⟨5, "C", "D", "c", "z", "w", 20, "4222", "11/31", "456"⟩])⟩,
       ⟨{"tok"}, [⟨1, "A", "B", "a", "x", "y", 10, "4111", "12/30", "123"⟩,
                  ⟨5, "C", "D", "c", "z", "w", 20, "4222", "11/31", "456"⟩]⟩) :=
  (listAll_sorted
      [⟨1, "A", "B", "a", "x", "y", 10, "4111", "12/30", "123"⟩,
       ⟨5, "C", "D", "c", "z", "w", 20, "4222", "11/31", "456"⟩]).2.2
    none ⟨"e", 0⟩ _ "Bearer tok" (by decide) (by decide)

/-- C8: in the `server.js` schema the three card paths are text and required,
but in the `part_000` revision the `cardCvc` path is declared with the literal
`true` in place of a type, which is not the text type. -/
theorem card_fields_schema :
    schemaField donationSchemaServerJs "cardNumber" =
      some ⟨"cardNumber", .stringT, true, false⟩ ∧
    schemaField donationSchemaServerJs "cardExpiry" =
      some ⟨"cardExpiry", .stringT, true, false⟩ ∧
    schemaField donationSchemaServerJs "cardCvc" =
      some ⟨"cardCvc", .stringT, true, false⟩ ∧
    schemaField donationSchemaPart000 "cardNumber" =
      some ⟨"cardNumber", .stringT, true, false⟩ ∧
    schemaField donationSchemaPart000 "cardExpiry" =
      some ⟨"cardExpiry", .stringT, true, false⟩ ∧
    schemaField donationSchemaPart000 "cardCvc" =
      some ⟨"cardCvc", .trueLit, true, false⟩ ∧
    SchemaTypeExpr.trueLit ≠ SchemaTypeExpr.stringT := by
  decide

end DonationBackend
